import Mathlib

/-!
# Verification of the Ratchet task-execution platform specification

Shallow embedding of the parts of the `ratchet` repository that the
specification's claims are about, together with theorems settling each claim.

* MCP request handler (`ratchet-mcp/src/server/handler.rs`): pagination of
  `tools/list`, authorization on `tools/call`, batch dispatch, and the
  conversion of `McpError` into JSON-RPC errors.
* Error metadata taxonomy (`ratchet-core/src/error.rs`).
* Registry-database synchronization (`ratchet-server/src/bridges.rs`).
* Execution update handler (`ratchet-rest-api/src/handlers/executions.rs`).
* JWT authentication middleware (`ratchet-web/src/middleware/auth.rs`).

Machine integers are modelled as `Nat`/`Int` with explicit wrapping where
overflow matters; timestamps are integers (`chrono` instants in the unit
noted at each use); fallible Rust code returns `Except`.
-/

namespace Ratchet

/-! ## JSON values

`serde_json::Value` modelled structurally.  Numbers are restricted to
integers: the embedded code never constructs or inspects fractional JSON
numbers. -/

inductive JsonValue where
  | null : JsonValue
  | bool (b : Bool) : JsonValue
  | num (n : Int) : JsonValue
  | str (s : String) : JsonValue
  | arr (xs : List JsonValue) : JsonValue
  | obj (fields : List (String × JsonValue)) : JsonValue

/-- Field lookup in a JSON object, as `serde_json::Map::get`. -/
def JsonValue.getField : JsonValue → String → Option JsonValue
  | .obj fields, k => fields.lookup k
  | _, _ => none

/-! ## base64 (the `base64` crate, `engine::general_purpose::STANDARD`)

Encoding of a byte list (each byte `< 256`) into the standard alphabet with
`=` padding; decoding requires canonical padding and rejects non-zero
trailing bits, matching the crate's `STANDARD` engine configuration
(`encode_padding = true`, `decode_padding_mode = RequireCanonical`,
`decode_allow_trailing_bits = false`). -/

def b64EncTable : List Char :=
  "ABCDEFGHIJKLMNOPQRSTUVWXYZabcdefghijklmnopqrstuvwxyz0123456789+/".toList

/-- The character for a 6-bit group. -/
def b64Char (n : Nat) : Char := b64EncTable.getD n 'A'

def b64ValAux : List Char → Nat → Char → Option Nat
  | [], _, _ => none
  | t :: ts, i, c => if t = c then some i else b64ValAux ts (i + 1) c

/-- The 6-bit value of an alphabet character, `none` for characters outside
the alphabet (including `=`). -/
def b64Val (c : Char) : Option Nat := b64ValAux b64EncTable 0 c

/-- base64-encode a byte list (standard alphabet, padded). -/
def base64Encode : List Nat → List Char
  | [] => []
  | [b] => [b64Char (b / 4), b64Char (b % 4 * 16), '=', '=']
  | [b1, b2] => [b64Char (b1 / 4), b64Char (b1 % 4 * 16 + b2 / 16), b64Char (b2 % 16 * 4), '=']
  | b1 :: b2 :: b3 :: rest =>
      b64Char (b1 / 4) :: b64Char (b1 % 4 * 16 + b2 / 16) ::
      b64Char (b2 % 16 * 4 + b3 / 64) :: b64Char (b3 % 64) :: base64Encode rest

/-- base64-decode a character list; `none` on any input the `STANDARD`
engine rejects (wrong length, invalid character, misplaced or non-canonical
padding, non-zero trailing bits). -/
def base64Decode : List Char → Option (List Nat)
  | [] => some []
  | c1 :: c2 :: c3 :: c4 :: rest =>
      if rest.isEmpty ∧ c4 = '=' then
        match b64Val c1, b64Val c2 with
        | some v1, some v2 =>
            if c3 = '=' then
              if v2 % 16 = 0 then some [v1 * 4 + v2 / 16] else none
            else
              match b64Val c3 with
              | some v3 =>
                  if v3 % 4 = 0 then
                    some [v1 * 4 + v2 / 16, v2 % 16 * 16 + v3 / 4]
                  else none
              | none => none
        | _, _ => none
      else
        match b64Val c1, b64Val c2, b64Val c3, b64Val c4, base64Decode rest with
        | some v1, some v2, some v3, some v4, some bytes =>
            some ((v1 * 4 + v2 / 16) :: (v2 % 16 * 16 + v3 / 4) :: (v3 % 4 * 64 + v4) :: bytes)
        | _, _, _, _, _ => none
  | _ => none

/-! ## Decimal rendering and `usize` parsing

`usize::to_string` and `str::parse::<usize>` on a 64-bit target.  The
parser accepts an optional leading `+`, then one or more ASCII digits, and
fails on overflow past `2 ^ 64`. -/

/-- Worker for the decimal rendering; the fuel argument (instantiated with
`n` itself, which always suffices) keeps the recursion structural. -/
def natDecimalGo : Nat → Nat → List Nat → List Nat
  | 0, n, acc => (48 + n % 10) :: acc
  | fuel + 1, n, acc =>
      if n < 10 then (48 + n) :: acc
      else natDecimalGo fuel (n / 10) ((48 + n % 10) :: acc)

/-- ASCII bytes of the decimal rendering of `n`, most significant first
(`usize::to_string`). -/
def natDecimal (n : Nat) : List Nat := natDecimalGo n n []

def allDigits (bs : List Nat) : Bool := bs.all fun b => 48 ≤ b && b ≤ 57

def digitsVal (bs : List Nat) : Nat := bs.foldl (fun a b => a * 10 + (b - 48)) 0

/-- `str::parse::<usize>` on the bytes of a string.  The source composes
`String::from_utf8(decoded).ok().and_then(|s| s.parse::<usize>().ok())`;
since every successfully parsed string is ASCII, parsing the raw bytes is
equivalent to that composition. -/
def parseUsizeBytes (bs : List Nat) : Option Nat :=
  let ds := if bs.head? = some 43 then bs.tail else bs
  if ds ≠ [] ∧ allDigits ds ∧ digitsVal ds < 2 ^ 64 then some (digitsVal ds) else none

/-! ### Round-trip lemmas for the cursor codec -/

theorem b64Val_b64Char_fin : ∀ n : Fin 64, b64Val (b64Char n.1) = some n.1 := by decide

theorem b64Char_ne_pad_fin : ∀ n : Fin 64, b64Char n.1 ≠ '=' := by decide

theorem b64Val_b64Char (n : Nat) (h : n < 64) : b64Val (b64Char n) = some n :=
  b64Val_b64Char_fin ⟨n, h⟩

theorem b64Char_ne_pad (n : Nat) (h : n < 64) : b64Char n ≠ '=' :=
  b64Char_ne_pad_fin ⟨n, h⟩

theorem base64_roundtrip :
    ∀ bs : List Nat, (∀ b ∈ bs, b < 256) → base64Decode (base64Encode bs) = some bs
  | [], _ => rfl
  | [b], h => by
      have hb : b < 256 := h b (by simp)
      have h1 := b64Val_b64Char (b / 4) (by omega)
      have h2 := b64Val_b64Char (b % 4 * 16) (by omega)
      have hmod : b % 4 * 16 % 16 = 0 := by omega
      simp only [base64Encode, base64Decode, List.isEmpty_nil, and_self, h1, h2]
      rw [if_pos trivial, if_pos hmod]
      refine congrArg some ?_
      refine List.cons_eq_cons.mpr ⟨by omega, rfl⟩
  | [b1, b2], h => by
      have hb1 : b1 < 256 := h b1 (by simp)
      have hb2 : b2 < 256 := h b2 (by simp)
      have h1 := b64Val_b64Char (b1 / 4) (by omega)
      have h2 := b64Val_b64Char (b1 % 4 * 16 + b2 / 16) (by omega)
      have h3 := b64Val_b64Char (b2 % 16 * 4) (by omega)
      have h3ne := b64Char_ne_pad (b2 % 16 * 4) (by omega)
      simp only [base64Encode, base64Decode, List.isEmpty_nil, and_self, h1, h2]
      rw [if_pos trivial, if_neg h3ne]
      have hmod : b2 % 16 * 4 % 4 = 0 := by omega
      simp only [h3]
      rw [if_pos hmod]
      refine congrArg some ?_
      refine List.cons_eq_cons.mpr ⟨by omega, ?_⟩
      refine List.cons_eq_cons.mpr ⟨by omega, rfl⟩
  | b1 :: b2 :: b3 :: rest, h => by
      have hb1 : b1 < 256 := h b1 (by simp)
      have hb2 : b2 < 256 := h b2 (by simp)
      have hb3 : b3 < 256 := h b3 (by simp)
      have ih := base64_roundtrip rest (fun x hx => h x (by simp [hx]))
      have h1 := b64Val_b64Char (b1 / 4) (by omega)
      have h2 := b64Val_b64Char (b1 % 4 * 16 + b2 / 16) (by omega)
      have h3 := b64Val_b64Char (b2 % 16 * 4 + b3 / 64) (by omega)
      have h4 := b64Val_b64Char (b3 % 64) (by omega)
      have h4ne := b64Char_ne_pad (b3 % 64) (by omega)
      simp only [base64Encode, base64Decode, h4ne, and_false, if_false, h1, h2, h3, h4, ih]
      refine congrArg some ?_
      refine List.cons_eq_cons.mpr ⟨by omega, ?_⟩
      refine List.cons_eq_cons.mpr ⟨by omega, ?_⟩
      refine List.cons_eq_cons.mpr ⟨by omega, rfl⟩

theorem natDecimalGo_append (fuel n : Nat) (acc : List Nat) :
    natDecimalGo fuel n acc = natDecimalGo fuel n [] ++ acc := by
  induction fuel generalizing n acc with
  | zero => simp [natDecimalGo]
  | succ fuel ih =>
    by_cases h : n < 10
    · simp [natDecimalGo, h]
    · rw [natDecimalGo, if_neg h, natDecimalGo, if_neg h]
      rw [ih (n / 10) ((48 + n % 10) :: acc), ih (n / 10) [48 + n % 10]]
      simp

theorem natDecimalGo_digits (fuel n : Nat) : ∀ b ∈ natDecimalGo fuel n [], 48 ≤ b ∧ b ≤ 57 := by
  induction fuel generalizing n with
  | zero =>
    intro b hb
    simp [natDecimalGo] at hb
    omega
  | succ fuel ih =>
    intro b hb
    by_cases h : n < 10
    · simp [natDecimalGo, h] at hb
      omega
    · rw [natDecimalGo, if_neg h, natDecimalGo_append] at hb
      rcases List.mem_append.mp hb with h1 | h1
      · exact ih (n / 10) b h1
      · simp at h1
        omega

theorem natDecimalGo_ne_nil (fuel n : Nat) : natDecimalGo fuel n [] ≠ [] := by
  cases fuel with
  | zero => simp [natDecimalGo]
  | succ fuel =>
    by_cases h : n < 10
    · simp [natDecimalGo, h]
    · rw [natDecimalGo, if_neg h, natDecimalGo_append]
      simp

theorem natDecimalGo_val (fuel n : Nat) (hfuel : n ≤ fuel) :
    ∀ a, (natDecimalGo fuel n []).foldl (fun x b => x * 10 + (b - 48)) a =
      a * 10 ^ (natDecimalGo fuel n []).length + n := by
  induction fuel generalizing n with
  | zero =>
    intro a
    have : n = 0 := by omega
    simp [natDecimalGo, this]
  | succ fuel ih =>
    intro a
    by_cases h : n < 10
    · simp [natDecimalGo, h]
    · rw [natDecimalGo, if_neg h, natDecimalGo_append, List.foldl_append, List.length_append]
      have hstep : n / 10 ≤ fuel := by
        have hlt : n / 10 < n := Nat.div_lt_self (by omega) (by omega)
        omega
      rw [ih (n / 10) hstep a]
      have hm : n / 10 * 10 + n % 10 = n := by omega
      have h48 : 48 + n % 10 - 48 = n % 10 := by omega
      simp only [List.foldl_cons, List.foldl_nil, List.length_cons, List.length_nil, h48]
      calc (a * 10 ^ (natDecimalGo fuel (n / 10) []).length + n / 10) * 10 + n % 10
          = a * (10 ^ (natDecimalGo fuel (n / 10) []).length * 10) + (n / 10 * 10 + n % 10) := by
            ring
        _ = a * 10 ^ ((natDecimalGo fuel (n / 10) []).length + 1) + n := by rw [hm, pow_succ]

theorem digitsVal_natDecimal (n : Nat) : digitsVal (natDecimal n) = n := by
  have h := natDecimalGo_val n n (Nat.le_refl n) 0
  simpa [digitsVal, natDecimal] using h

theorem parseUsizeBytes_natDecimal (n : Nat) (h : n < 2 ^ 64) :
    parseUsizeBytes (natDecimal n) = some n := by
  obtain ⟨b, rest, hbr⟩ : ∃ b rest, natDecimal n = b :: rest := by
    cases hd : natDecimal n with
    | nil => exact absurd hd (natDecimalGo_ne_nil n n)
    | cons b rest => exact ⟨b, rest, rfl⟩
  have hb := natDecimalGo_digits n n b (by rw [show natDecimalGo n n [] = natDecimal n from rfl, hbr]; simp)
  unfold parseUsizeBytes
  have hhead : (natDecimal n).head? ≠ some 43 := by
    rw [hbr]
    simp
    omega
  rw [if_neg hhead, if_pos]
  · rw [digitsVal_natDecimal]
  · refine ⟨natDecimalGo_ne_nil n n, ?_, ?_⟩
    · simp only [allDigits, List.all_eq_true]
      intro x hx
      have := natDecimalGo_digits n n x hx
      simp
      omega
    · rw [digitsVal_natDecimal]
      exact h

/-! ## MCP errors (`ratchet-mcp/src/error.rs`)

`std::time::Duration` fields are modelled as whole seconds (`Nat`): every
construction site in the embedded code uses `Duration::from_secs`.  Its
`Debug` rendering (used by the `{:?}` format specifier in the `thiserror`
attributes) is `"<n>s"` for whole-second durations. -/

abbrev McpDuration := Nat

def durationRepr (d : McpDuration) : String := toString d ++ "s"

def optDurationRepr : Option McpDuration → String
  | some d => "Some(" ++ durationRepr d ++ ")"
  | none => "None"

inductive McpError where
  | Transport (message : String)
  | ConnectionFailed (reason : String)
  | ConnectionTimeout (timeout : McpDuration)
  | Protocol (message : String)
  | InvalidJsonRpc (details : String)
  | MethodNotFound (method : String)
  | InvalidParams (method : String) (details : String)
  | ToolNotFound (tool_name : String)
  | ToolExecutionFailed (tool_name : String) (reason : String)
  | AuthenticationFailed (reason : String)
  | AuthorizationDenied (reason : String)
  | RateLimitExceeded (message : String) (retry_after : Option McpDuration)
  | RateLimited (message : String)
  | QuotaExceeded (resource : String) (message : String)
  | ServerTimeout (timeout : McpDuration)
  | ServerUnavailable (reason : String)
  | ServerError (message : String)
  | Configuration (message : String)
  | Serialization (details : String)
  | Internal (message : String)
  | Network (message : String)
  | Security (message : String)
  | Validation (field : String) (message : String)
  | ResourceNotFound (resource_type : String) (resource_id : String)
  | Cancelled (reason : String)
  | Generic (message : String)

/-- The `Display` implementation derived by `thiserror` from the `#[error]`
attributes on `McpError` (`err.to_string()`). -/
def McpError.displayString : McpError → String
  | .Transport m => "Transport error: " ++ m
  | .ConnectionFailed r => "Connection failed: " ++ r
  | .ConnectionTimeout t => "Connection timeout after " ++ durationRepr t
  | .Protocol m => "Protocol error: " ++ m
  | .InvalidJsonRpc d => "Invalid JSON-RPC message: " ++ d
  | .MethodNotFound m => "Method not found: " ++ m
  | .InvalidParams m d => "Invalid parameters for method " ++ m ++ ": " ++ d
  | .ToolNotFound t => "Tool not found: " ++ t
  | .ToolExecutionFailed t r => "Tool execution failed: " ++ t ++ ": " ++ r
  | .AuthenticationFailed r => "Authentication failed: " ++ r
  | .AuthorizationDenied r => "Authorization denied: " ++ r
  | .RateLimitExceeded m r => "Rate limit exceeded: " ++ m ++ ", retry after " ++ optDurationRepr r
  | .RateLimited m => "Rate limited: " ++ m
  | .QuotaExceeded r m => "Resource quota exceeded: " ++ r ++ ": " ++ m
  | .ServerTimeout t => "Server timeout after " ++ durationRepr t
  | .ServerUnavailable r => "Server unavailable: " ++ r
  | .ServerError m => "Server error: " ++ m
  | .Configuration m => "Configuration error: " ++ m
  | .Serialization d => "Serialization error: " ++ d
  | .Internal m => "Internal server error: " ++ m
  | .Network m => "Network error: " ++ m
  | .Security m => "Security error: " ++ m
  | .Validation f m => "Validation error: " ++ f ++ ": " ++ m
  | .ResourceNotFound t i => "Resource not found: " ++ t ++ ": " ++ i
  | .Cancelled r => "Operation cancelled: " ++ r
  | .Generic m => "MCP error: " ++ m

/-! ## JSON-RPC protocol types

The `ratchet-mcp` `protocol` module is not among the provided sources; the
following shapes are modelled from the spec (§4.6 wire table). -/

/-- Modelled from the spec: JSON-RPC error object of the absent `protocol`
module; `{ code, message, data? }`. -/
structure JsonRpcError where
  code : Int
  message : String
  data : Option JsonValue

/-- Modelled from the spec: `JsonRpcError::method_not_found` of the absent
`protocol` module; standard JSON-RPC code `-32601`. -/
def JsonRpcError.method_not_found (method : String) : JsonRpcError :=
  ⟨-32601, "Method not found: " ++ method, none⟩

/-- Modelled from the spec: `JsonRpcError::invalid_params` of the absent
`protocol` module; standard JSON-RPC code `-32602`. -/
def JsonRpcError.invalid_params (details : String) : JsonRpcError :=
  ⟨-32602, details, none⟩

/-- Modelled from the spec: `JsonRpcError::server_error` of the absent
`protocol` module; carries the given implementation-defined code. -/
def JsonRpcError.server_error (code : Int) (message : String) (data : Option JsonValue) :
    JsonRpcError :=
  ⟨code, message, data⟩

/-- Modelled from the spec: `JsonRpcError::internal_error` of the absent
`protocol` module; standard JSON-RPC code `-32603` with the error message. -/
def JsonRpcError.internal_error (message : String) : JsonRpcError :=
  ⟨-32603, message, none⟩

/-- `impl From<McpError> for JsonRpcError`
(`ratchet-mcp/src/server/handler.rs`, lines 443-454). -/
def mcpErrorToJsonRpc : McpError → JsonRpcError
  | .MethodNotFound method => JsonRpcError.method_not_found method
  | .InvalidParams _ details => JsonRpcError.invalid_params details
  | .Validation _ message => JsonRpcError.invalid_params message
  | .ServerTimeout _ => JsonRpcError.server_error (-32001) "Request timeout" none
  | .Internal message => JsonRpcError.internal_error message
  | e => JsonRpcError.internal_error e.displayString

/-- Modelled from the spec: `JsonRpcRequest` of the absent `protocol`
module; `{ jsonrpc: "2.0", method, params?, id }`. -/
structure JsonRpcRequest where
  jsonrpc : String
  method : String
  params : Option JsonValue
  id : Option JsonValue

/-! ## MCP security context and permissions

The `ratchet-mcp` `security` module is not among the provided sources;
shapes below are modelled from the spec (§3 `SecurityContext`) restricted
to the fields the embedded handler code reads
(`security_ctx.client.id`, `security_ctx.client.permissions`,
`security_ctx.request_id`). -/

/-- Modelled from the spec: client permissions of the absent `security`
module; only the batch-size quota is consumed by the embedded code. -/
structure ClientPermissions where
  max_batch_size : Nat

/-- Modelled from the spec: the client part of `SecurityContext`. -/
structure ClientContext where
  id : String
  session_id : String
  permissions : ClientPermissions

/-- Modelled from the spec: `SecurityContext` (§3), fields read by the
handler. -/
structure SecurityContext where
  client : ClientContext
  request_id : Option String

/-- Modelled from the spec: `PermissionChecker::validate_request_size` of
the absent `security` module; `batch` validates `batch_size` against
`permissions.max_batch_size` (§4.6). -/
def PermissionChecker.validate_request_size (perms : ClientPermissions) (size : Nat) :
    Except String Unit :=
  if size > perms.max_batch_size then
    .error "Request size exceeds maximum allowed"
  else .ok ()

/-- Modelled from the spec: `InputSanitizer::validate_resource_uri` of the
absent `security` module; a safe-URI predicate (no path traversal, scheme
allowlist, §4.6). -/
def validate_resource_uri (uri : String) : Bool :=
  uri.startsWith "ratchet://" && (uri.splitOn "..").length == 1

/-! ## MCP request handler (`ratchet-mcp/src/server/handler.rs`)

The handler's collaborators are modelled as follows.

* The `ToolRegistry` trait object becomes a structure of functions.
* The correlation manager, metrics system and audit logger are pure
  observers of the handler: each handler returns, next to its result, the
  ordered list of `Event`s it emitted to them.  `Duration` measurements
  (wall-clock timings) are real-time data and are not modelled; success
  flags, identifiers and error codes are.
* `CorrelationManager::start_request` returns a fresh request id; the
  handler functions take that id (`fresh`) as an argument. -/

/-- Modelled from the spec: `Tool` of the absent `protocol` module (name
and description; schemas are irrelevant to the embedded paths). -/
structure McpTool where
  name : String
  description : String
deriving DecidableEq

/-- Modelled from the spec: `ToolsCallResult` of the absent `protocol`
module; `{ content, is_error }` (§4.6 method table). -/
structure ToolsCallResult where
  content : JsonValue
  is_error : Bool

structure ToolExecutionContext where
  security : SecurityContext
  arguments : Option JsonValue
  request_id : Option String

/-- The `ToolRegistry` trait as consumed by the handler. -/
structure ToolRegistry where
  list_tools : SecurityContext → Except McpError (List McpTool)
  can_access_tool : String → SecurityContext → Bool
  execute_tool : String → ToolExecutionContext → Except McpError ToolsCallResult

/-- `McpRequestHandler`: the fields the embedded code branches on.
`batchEnabled` is `batch_processor.is_some()`. -/
structure McpRequestHandler where
  registry : ToolRegistry
  batchEnabled : Bool

structure ToolsListParams where
  cursor : Option String

structure ToolsListResult where
  tools : List McpTool
  next_cursor : Option String
deriving DecidableEq

structure ToolsCallParams where
  name : String
  arguments : Option JsonValue

structure ResourcesListResult where
  resources : List JsonValue
  next_cursor : Option String

structure ResourcesReadResult where
  contents : List JsonValue

/-- Observable side effects of a handler invocation (correlation manager,
metrics system, audit logger, tool executions). -/
inductive Event where
  | corrStart (client method request_id : String)
  | corrMeta (request_id key value : String)
  | corrComplete (request_id : String) (success : Bool) (error_code : Option String)
  | metricRequest (method client : String) (success : Bool)
  | metricTool (tool client : String) (success : Bool)
  | auditToolExecution (client tool : String) (success : Bool) (request_id : Option String)
  | auditAuthorization (client target action : String) (success : Bool) (details : Option String)
  | toolExecuted (tool : String)

/-- Is the event an entry written through the `AuditLogger`? -/
def Event.isAudit : Event → Bool
  | .auditToolExecution .. => true
  | .auditAuthorization .. => true
  | _ => false

/-- Is the event an execution of a tool by the registry? -/
def Event.isToolExecution : Event → Bool
  | .toolExecuted _ => true
  | _ => false

/-! ### Parameter deserialization

`serde_json::from_value` for the parameter structures of the absent
`protocol` module.  Modelled from the spec: a struct deserializes from a
JSON object; unknown fields are ignored; an `Option` field is `none` when
missing or `null`; a missing required field or a type mismatch is an
error. -/

def parseOptString : Option JsonValue → Except String (Option String)
  | none => .ok none
  | some .null => .ok none
  | some (.str s) => .ok (some s)
  | some _ => .error "invalid type"

/-- Modelled from the spec: deserialize `ToolsListParams { cursor? }`. -/
def parseToolsListParams (v : JsonValue) : Except String ToolsListParams :=
  match v with
  | .obj _ => do
      let c ← parseOptString (v.getField "cursor")
      .ok ⟨c⟩
  | _ => .error "invalid type: expected object"

/-- Modelled from the spec: deserialize `ToolsCallParams { name, arguments }`. -/
def parseToolsCallParams (v : JsonValue) : Except String ToolsCallParams :=
  match v with
  | .obj _ =>
      match v.getField "name" with
      | some (.str n) =>
          match v.getField "arguments" with
          | none => .ok ⟨n, none⟩
          | some .null => .ok ⟨n, none⟩
          | some a => .ok ⟨n, some a⟩
      | some _ => .error "invalid type: name"
      | none => .error "missing field name"
  | _ => .error "invalid type: expected object"

/-- Modelled from the spec: deserialize a `JsonRpcRequest`
`{ jsonrpc, method, params?, id }`. -/
def parseJsonRpcRequest (v : JsonValue) : Except String JsonRpcRequest :=
  match v with
  | .obj _ =>
      match v.getField "jsonrpc", v.getField "method" with
      | some (.str j), some (.str m) =>
          let p := match v.getField "params" with
            | none => none
            | some .null => none
            | some q => some q
          .ok ⟨j, m, p, v.getField "id"⟩
      | _, _ => .error "invalid request"
  | _ => .error "invalid type: expected object"

/-- Modelled from the spec: `BatchParams { requests, options }` of the
absent `protocol` module; the embedded code reads only `requests`, so
`options` is kept as raw JSON. -/
structure BatchParams where
  requests : List JsonRpcRequest
  options : Option JsonValue

def parseRequestList : List JsonValue → Except String (List JsonRpcRequest)
  | [] => .ok []
  | v :: vs => do
      let r ← parseJsonRpcRequest v
      let rs ← parseRequestList vs
      .ok (r :: rs)

/-- Modelled from the spec: deserialize `BatchParams`. -/
def parseBatchParams (v : JsonValue) : Except String BatchParams :=
  match v with
  | .obj _ =>
      match v.getField "requests" with
      | some (.arr vs) => do
          let rs ← parseRequestList vs
          .ok ⟨rs, v.getField "options"⟩
      | some _ => .error "invalid type: requests"
      | none => .error "missing field requests"
  | _ => .error "invalid type: expected object"

/-! ### `handle_tools_list` (lines 88-178) -/

/-- `PAGE_SIZE` (line 114): maximum tools per page. -/
abbrev PAGE_SIZE : Nat := 50

/-- The cursor decoding of lines 118-135: base64-decode, parse as `usize`,
fall back to index `0` when invalid or out of range. -/
def decodeCursorIndex (cursor : String) (len : Nat) : Nat :=
  match base64Decode cursor.toList with
  | some decoded =>
      match parseUsizeBytes decoded with
      | some index => if index < len then index else 0
      | none => 0
  | none => 0

/-- The cursor encoding of lines 142-143:
`STANDARD.encode(end_index.to_string())`. -/
def encodeCursor (index : Nat) : String := ⟨base64Encode (natDecimal index)⟩

/-- `McpRequestHandler::handle_tools_list` (lines 88-178).  Returns the
structured `ToolsListResult` (the final `serde_json::to_value` injection is
not modelled) together with the emitted events. -/
def handle_tools_list (h : McpRequestHandler) (params? : Option JsonValue)
    (ctx : SecurityContext) (fresh : String) :
    Except McpError ToolsListResult × List Event :=
  let request_id := ctx.request_id.getD fresh
  let t0 : List Event :=
    if ctx.request_id.isNone then [.corrStart ctx.client.id "tools/list" request_id] else []
  let parsed : Except McpError (Option ToolsListParams) :=
    match params? with
    | some p =>
        match parseToolsListParams p with
        | .ok q => .ok (some q)
        | .error e => .error (.Serialization e)
    | none => .ok none
  match parsed with
  | .error e => (.error e, t0)
  | .ok params =>
    match h.registry.list_tools ctx with
    | .error e => (.error e, t0)
    | .ok tools =>
      let start_index :=
        match params with
        | some q =>
            match q.cursor with
            | some cursor => decodeCursorIndex cursor tools.length
            | none => 0
        | none => 0
      let end_index := min (start_index + PAGE_SIZE) tools.length
      let next_cursor := if end_index < tools.length then some (encodeCursor end_index) else none
      let page := (tools.drop start_index).take PAGE_SIZE
      (.ok ⟨page, next_cursor⟩,
       t0 ++ [.metricRequest "tools/list" ctx.client.id true]
          ++ (if ctx.request_id.isNone then [.corrComplete request_id true none] else [])
          ++ [.auditToolExecution ctx.client.id "tools/list" true (some request_id)])

/-! ### `handle_tools_call` (lines 180-260) -/

/-- `McpRequestHandler::handle_tools_call` (lines 180-260). -/
def handle_tools_call (h : McpRequestHandler) (params? : Option JsonValue)
    (ctx : SecurityContext) (fresh : String) :
    Except McpError ToolsCallResult × List Event :=
  let request_id := ctx.request_id.getD fresh
  let t0 : List Event :=
    if ctx.request_id.isNone then [.corrStart ctx.client.id "tools/call" request_id] else []
  match params? with
  | none => (.error (.InvalidParams "tools/call" "Missing parameters"), t0)
  | some v =>
    match parseToolsCallParams v with
    | .error e => (.error (.InvalidParams "tools/call" e), t0)
    | .ok params =>
      if ¬ h.registry.can_access_tool params.name ctx then
        (.error (.AuthorizationDenied ("Access denied to tool: " ++ params.name)),
         t0 ++ [.metricRequest "tools/call" ctx.client.id false]
            ++ (if ctx.request_id.isNone then
                  [.corrComplete request_id false (some "authorization_denied")] else []))
      else
        let result := h.registry.execute_tool params.name ⟨ctx, params.arguments, some request_id⟩
        let success := result.isOk
        let error_code : Option String :=
          if ¬ success then some "tool_execution_failed" else none
        (result,
         t0 ++ [.corrMeta request_id "tool_name" params.name,
                .toolExecuted params.name,
                .metricRequest "tools/call" ctx.client.id success,
                .metricTool params.name ctx.client.id success]
            ++ (if ctx.request_id.isNone then [.corrComplete request_id success error_code] else [])
            ++ [.auditToolExecution ctx.client.id params.name success (some request_id)])

/-! ### `handle_resources_list` / `handle_resources_read` (lines 262-320) -/

/-- `McpRequestHandler::handle_resources_list` (lines 262-286): always an
empty resource list. -/
def handle_resources_list (_h : McpRequestHandler) (params? : Option JsonValue)
    (ctx : SecurityContext) :
    Except McpError ResourcesListResult × List Event :=
  let parsed : Except McpError (Option ToolsListParams) :=
    match params? with
    | some p =>
        match parseToolsListParams p with
        | .ok q => .ok (some q)
        | .error e => .error (.Serialization e)
    | none => .ok none
  match parsed with
  | .error e => (.error e, [])
  | .ok _ =>
      (.ok ⟨[], none⟩, [.auditAuthorization ctx.client.id "resources" "list" true none])

/-- `McpRequestHandler::handle_resources_read` (lines 288-320). -/
def handle_resources_read (_h : McpRequestHandler) (params? : Option JsonValue)
    (ctx : SecurityContext) :
    Except McpError ResourcesReadResult × List Event :=
  match params? with
  | none => (.error (.InvalidParams "resources/read" "Missing parameters"), [])
  | some v =>
    match v.getField "uri" with
    | some (.str uri) =>
        if ¬ validate_resource_uri uri then
          (.error (.Validation "uri" "Invalid or unsafe resource URI"), [])
        else
          (.ok ⟨[]⟩, [.auditAuthorization ctx.client.id uri "read" true none])
    | some _ => (.error (.InvalidParams "resources/read" "invalid type: uri"), [])
    | none => (.error (.InvalidParams "resources/read" "missing field uri"), [])

/-! ### `handle_single_request` and `handle_batch` (lines 322-412) -/

/-- The result value of a single dispatched request
(`serde_json::Value` restricted to the shapes the dispatcher produces). -/
inductive ResultValue where
  | toolsList (r : ToolsListResult)
  | toolsCall (r : ToolsCallResult)
  | resourcesList (r : ResourcesListResult)
  | resourcesRead (r : ResourcesReadResult)

/-- `McpRequestHandler::handle_single_request` (lines 398-412). -/
def handle_single_request (h : McpRequestHandler) (request : JsonRpcRequest)
    (ctx : SecurityContext) (fresh : String) :
    Except McpError ResultValue × List Event :=
  match request.method with
  | "tools/list" =>
      let (r, t) := handle_tools_list h request.params ctx fresh
      (r.map .toolsList, t)
  | "tools/call" =>
      let (r, t) := handle_tools_call h request.params ctx fresh
      (r.map .toolsCall, t)
  | "resources/list" =>
      let (r, t) := handle_resources_list h request.params ctx
      (r.map .resourcesList, t)
  | "resources/read" =>
      let (r, t) := handle_resources_read h request.params ctx
      (r.map .resourcesRead, t)
  | m => (.error (.MethodNotFound m), [])

/-- A JSON-RPC response as built by the batch closure (lines 351-370). -/
structure JsonRpcResponse where
  jsonrpc : String
  result : Option ResultValue
  error : Option JsonRpcError
  id : Option JsonValue

/-- The closure of lines 351-370: dispatch one inner request and convert
the outcome into a `JsonRpcResponse`. -/
def dispatchToResponse (h : McpRequestHandler) (ctx : SecurityContext) (fresh : String)
    (request : JsonRpcRequest) : JsonRpcResponse × List Event :=
  match handle_single_request h request ctx fresh with
  | (.ok result, t) => (⟨"2.0", some result, none, request.id⟩, t)
  | (.error e, t) => (⟨"2.0", none, some (mcpErrorToJsonRpc e), request.id⟩, t)

/-- Batch statistics, field names as read at lines 384-390. -/
structure BatchStats where
  total_requests : Nat
  successful_requests : Nat
  failed_requests : Nat
  skipped_requests : Nat
deriving DecidableEq

structure BatchExecutionResult where
  responses : List JsonRpcResponse
  stats : BatchStats

/-- Modelled from the spec: `BatchProcessor::process_batch_with_handler`
of the absent `batch` module.  Per §4.6, a batch dispatches each inner
request to the single-request dispatcher, one item's error never fails
sibling items, and the result carries
`stats = { total, successful, failed, skipped }`.  Requests are processed
in order; nothing is skipped.  The handler function receives the position
of the request so that each inner dispatch gets its own fresh correlation
id. -/
def process_batch_with_handler (params : BatchParams)
    (handler : Nat → JsonRpcRequest → JsonRpcResponse × List Event) :
    BatchExecutionResult × List Event :=
  let outcomes := params.requests.enum.map fun p => handler p.1 p.2
  let responses := outcomes.map Prod.fst
  let stats : BatchStats :=
    ⟨params.requests.length,
     (responses.filter fun r => r.error.isNone).length,
     (responses.filter fun r => r.error.isSome).length,
     0⟩
  (⟨responses, stats⟩, (outcomes.map Prod.snd).flatten)

/-- `McpRequestHandler::handle_batch` (lines 322-395). -/
def handle_batch (h : McpRequestHandler) (params? : Option JsonValue)
    (ctx : SecurityContext) (fresh : Nat → String) :
    Except McpError BatchExecutionResult × List Event :=
  if ¬ h.batchEnabled then (.error (.MethodNotFound "batch"), [])
  else
    match params? with
    | none => (.error (.InvalidParams "batch" "Missing parameters"), [])
    | some v =>
      match parseBatchParams v with
      | .error e => (.error (.InvalidParams "batch" e), [])
      | .ok params =>
        let batch_size := params.requests.length
        match PermissionChecker.validate_request_size ctx.client.permissions batch_size with
        | .error msg => (.error (.Validation "batch_size" msg), [])
        | .ok _ =>
          let (result, t) :=
            process_batch_with_handler params fun i r => dispatchToResponse h ctx (fresh i) r
          (.ok result,
           t ++ [.auditAuthorization ctx.client.id
                   ("batch:" ++ toString result.stats.total_requests) "batch_execute"
                   (result.stats.failed_requests == 0)
                   (some ("success:" ++ toString result.stats.successful_requests
                     ++ ", failed:" ++ toString result.stats.failed_requests
                     ++ ", skipped:" ++ toString result.stats.skipped_requests))])

/-! ## Core error taxonomy (`ratchet-core/src/error.rs`)

`std::time::Duration` is modelled in milliseconds here because the
metadata table uses both `Duration::from_secs` and
`Duration::from_millis`. -/

abbrev CoreDuration := Nat

inductive TaskError where
  | NotFound (s : String)
  | ValidationFailed (s : String)
  | Disabled (s : String)
  | VersionMismatch (expected actual : String)
  | InvalidSource (s : String)
  | Deprecated (s : String)

inductive ExecutionError where
  | NotFound (s : String)
  | Failed (s : String)
  | Cancelled
  | Timeout (secs : Nat)
  | InvalidState (s : String)
  | WorkerError (s : String)

inductive StorageError where
  | ConnectionFailed (s : String)
  | QueryFailed (s : String)
  | TransactionFailed (s : String)
  | MigrationFailed (s : String)
  | NotFound
  | DuplicateKey (s : String)

inductive ConfigError where
  | MissingRequired (s : String)
  | InvalidValue (s : String)
  | FileNotFound (s : String)
  | ParseError (s : String)
  | MissingEnvVar (s : String)

inductive ValidationError where
  | InputValidation (s : String)
  | OutputValidation (s : String)
  | SchemaValidation (s : String)
  | InvalidFormat (s : String)
  | RequiredFieldMissing (s : String)

inductive ServiceError where
  | NotFound (s : String)
  | Unavailable (s : String)
  | InitializationFailed (s : String)
  | DependencyInjectionFailed (s : String)

inductive PluginError where
  | NotFound (s : String)
  | LoadFailed (s : String)
  | InitializationFailed (s : String)
  | ApiVersionMismatch (expected actual : String)
  | CapabilityNotSupported (s : String)

inductive RatchetError where
  | Task (e : TaskError)
  | Execution (e : ExecutionError)
  | ExecutionError (s : String)
  | Storage (e : StorageError)
  | Config (e : ConfigError)
  | Validation (e : ValidationError)
  | Service (e : ServiceError)
  | Plugin (e : PluginError)
  | Network (s : String)
  | Io (s : String)
  | Serialization (s : String)
  | Timeout (s : String)
  | Other (s : String)

/-- Modelled from the spec: `ErrorCategory` of the absent
`error/standardized.rs`; `category ∈ {NotFound, Validation, Client,
Server, Network, Configuration}` (§4.7). -/
inductive ErrorCategory where
  | NotFound | Validation | Client | Server | Network | Configuration
deriving DecidableEq

/-- Modelled from the spec: `ErrorMetadata` of the absent
`error/standardized.rs`;
`{ code, http_status, category, retryable, retry_delay? }` (§4.7) plus the
`context` map the construction site fills with `HashMap::new()`. -/
structure ErrorMetadata where
  code : String
  http_status : Nat
  retryable : Bool
  retry_delay : Option CoreDuration
  category : ErrorCategory
  context : List (String × String)
deriving DecidableEq

/-- `impl StandardizedError for RatchetError::metadata`
(`ratchet-core/src/error.rs`, lines 265-386).  `retry_delay` in
milliseconds. -/
def RatchetError.metadata (e : RatchetError) : ErrorMetadata :=
  let t : String × ErrorCategory × Bool × Option CoreDuration × Nat :=
    match e with
    | .Task (.NotFound _) => ("TASK_NOT_FOUND", .NotFound, false, none, 404)
    | .Task (.ValidationFailed _) => ("TASK_VALIDATION_FAILED", .Validation, false, none, 400)
    | .Task (.Disabled _) => ("TASK_DISABLED", .Client, false, none, 403)
    | .Task (.Deprecated _) => ("TASK_DEPRECATED", .Client, false, none, 410)
    | .Task (.VersionMismatch _ _) => ("TASK_VERSION_MISMATCH", .Client, false, none, 400)
    | .Task (.InvalidSource _) => ("TASK_INVALID_SOURCE", .Validation, false, none, 400)
    | .Execution (.NotFound _) => ("EXECUTION_NOT_FOUND", .NotFound, false, none, 404)
    | .Execution (.Failed _) => ("EXECUTION_FAILED", .Server, false, none, 500)
    | .Execution .Cancelled => ("EXECUTION_CANCELLED", .Client, false, none, 400)
    | .Execution (.Timeout _) => ("EXECUTION_TIMEOUT", .Network, true, some 2000, 408)
    | .Execution (.InvalidState _) => ("EXECUTION_INVALID_STATE", .Client, false, none, 400)
    | .Execution (.WorkerError _) => ("EXECUTION_WORKER_ERROR", .Server, true, some 1000, 500)
    | .ExecutionError _ => ("EXECUTION_ERROR", .Server, false, none, 500)
    | .Storage .NotFound => ("ENTITY_NOT_FOUND", .NotFound, false, none, 404)
    | .Storage (.ConnectionFailed _) => ("STORAGE_CONNECTION_FAILED", .Network, true, some 1000, 503)
    | .Storage (.QueryFailed _) => ("STORAGE_QUERY_FAILED", .Server, false, none, 500)
    | .Storage (.TransactionFailed _) => ("STORAGE_TRANSACTION_FAILED", .Server, true, some 500, 500)
    | .Storage (.MigrationFailed _) => ("STORAGE_MIGRATION_FAILED", .Configuration, false, none, 500)
    | .Storage (.DuplicateKey _) => ("STORAGE_DUPLICATE_KEY", .Client, false, none, 409)
    | .Config _ => ("CONFIG_ERROR", .Configuration, false, none, 500)
    | .Validation _ => ("VALIDATION_ERROR", .Validation, false, none, 400)
    | .Service (.NotFound _) => ("SERVICE_NOT_FOUND", .NotFound, false, none, 404)
    | .Service (.Unavailable _) => ("SERVICE_UNAVAILABLE", .Network, true, some 5000, 503)
    | .Service (.InitializationFailed _) =>
        ("SERVICE_INITIALIZATION_FAILED", .Configuration, false, none, 500)
    | .Service (.DependencyInjectionFailed _) =>
        ("SERVICE_DEPENDENCY_INJECTION_FAILED", .Configuration, false, none, 500)
    | .Plugin (.NotFound _) => ("PLUGIN_NOT_FOUND", .NotFound, false, none, 404)
    | .Plugin (.LoadFailed _) => ("PLUGIN_LOAD_FAILED", .Configuration, false, none, 500)
    | .Plugin (.InitializationFailed _) =>
        ("PLUGIN_INITIALIZATION_FAILED", .Configuration, false, none, 500)
    | .Plugin (.ApiVersionMismatch _ _) =>
        ("PLUGIN_API_VERSION_MISMATCH", .Configuration, false, none, 500)
    | .Plugin (.CapabilityNotSupported _) =>
        ("PLUGIN_CAPABILITY_NOT_SUPPORTED", .Client, false, none, 400)
    | .Network _ => ("NETWORK_ERROR", .Network, true, some 1000, 503)
    | .Io _ => ("IO_ERROR", .Server, true, some 500, 500)
    | .Serialization _ => ("SERIALIZATION_ERROR", .Client, false, none, 400)
    | .Timeout _ => ("TIMEOUT", .Network, true, some 2000, 408)
    | .Other _ => ("INTERNAL_ERROR", .Server, false, none, 500)
  { code := t.1, http_status := t.2.2.2.2, retryable := t.2.2.1,
    retry_delay := t.2.2.2.1, category := t.2.1, context := [] }

/-! ## Registry bridge synchronization (`ratchet-server/src/bridges.rs`)

`ratchet_interfaces::SyncResult` carries four vectors; their element types
live outside the provided sources and are modelled as task identifiers. -/

structure SyncResult where
  added : List String
  updated : List String
  removed : List String
  errors : List String
deriving DecidableEq

/-- A bridged registry: the set of tasks its underlying registry service
currently exposes (discovered from its sources, e.g. a filesystem
directory). -/
structure BridgeTaskRegistry where
  tasks : List String

structure BridgeRegistryManager where
  registries : List BridgeTaskRegistry

/-- `BridgeRegistryManager::sync_with_database`
(`ratchet-server/src/bridges.rs`, lines 299-307): the implementation
ignores the registries and returns an empty `SyncResult`
("For now, return empty sync result"). -/
def BridgeRegistryManager.sync_with_database (_m : BridgeRegistryManager) :
    Except String SyncResult :=
  .ok ⟨[], [], [], []⟩

/-! ## Execution update handler
(`ratchet-rest-api/src/handlers/executions.rs`)

Timestamps are `chrono` instants in milliseconds (`Int`); the three
`Utc::now()` calls inside one invocation are modelled as the same instant
`now`.  `duration.num_milliseconds() as i32` truncates to 32 bits:
`toI32`. -/

inductive ExecutionStatus where
  | Pending | Running | Completed | Failed | Cancelled
deriving DecidableEq

structure UnifiedExecution where
  id : Int
  uuid : String
  task_id : Int
  input : JsonValue
  output : Option JsonValue
  status : ExecutionStatus
  error_message : Option String
  error_details : Option JsonValue
  queued_at : Int
  started_at : Option Int
  completed_at : Option Int
  duration_ms : Option Int
  http_requests : Option JsonValue
  recording_path : Option String
  can_retry : Bool
  can_cancel : Bool
  progress : Option Rat

structure UpdateExecutionRequest where
  output : Option JsonValue
  status : Option ExecutionStatus
  error_message : Option String
  error_details : Option JsonValue
  progress : Option Rat

/-- `as i32`: wrap an integer into `[-2^31, 2^31)`. -/
def toI32 (x : Int) : Int := (x + 2 ^ 31) % 2 ^ 32 - 2 ^ 31

/-- The "Apply updates" block of `update_execution` (lines 198-235). -/
def applyExecutionUpdate (existing : UnifiedExecution) (req : UpdateExecutionRequest)
    (now : Int) : UnifiedExecution :=
  let e1 := match req.output with
    | some o => { existing with output := some o }
    | none => existing
  let e2 := match req.status with
    | some status =>
        let base := { e1 with status := status }
        match status with
        | .Running =>
            if base.started_at.isNone then { base with started_at := some now } else base
        | .Completed | .Failed | .Cancelled =>
            let b2 :=
              if base.completed_at.isNone then { base with completed_at := some now } else base
            match b2.started_at with
            | some started_at => { b2 with duration_ms := some (toI32 (now - started_at)) }
            | none => b2
        | _ => base
    | none => e1
  let e3 := match req.error_message with
    | some m => { e2 with error_message := some m }
    | none => e2
  let e4 := match req.error_details with
    | some d => { e3 with error_details := some d }
    | none => e3
  match req.progress with
  | some p => { e4 with progress := some p }
  | none => e4

inductive RestError where
  | BadRequest (msg : String)
  | NotFound (msg : String)
  | InternalError (msg : String)
  | Database (msg : String)

/-- `update_execution` (lines 148-244).  The `InputValidator` /
`ErrorSanitizer` collaborators and the repository are outside the provided
sources: the validators' verdicts on the three validated inputs and the
repository lookup result are passed in, and `repo.update` is modelled as
returning the record it was given. -/
def update_execution (execution_id : String) (req : UpdateExecutionRequest)
    (validId validOutput validMsg : Bool) (findResult : Option UnifiedExecution)
    (now : Int) : Except RestError UnifiedExecution :=
  if ¬ validId then .error (.BadRequest "invalid execution_id")
  else if req.output.isSome ∧ ¬ validOutput then .error (.BadRequest "invalid output")
  else if req.error_message.isSome ∧ ¬ validMsg then .error (.BadRequest "invalid error_message")
  else
    match findResult with
    | none => .error (.NotFound ("Execution " ++ execution_id))
    | some existing => .ok (applyExecutionUpdate existing req now)

/-! ## JWT authentication middleware (`ratchet-web/src/middleware/auth.rs`)

Timestamps are UNIX seconds (`Int`), matching `chrono`'s `.timestamp()`.

The `jsonwebtoken` crate is an external collaborator (spec §1 places JWT
issuance out of scope); it is idealized: a token records its header
algorithm, its claims and the key it was signed with (a perfect-MAC model
of the HS256 signature), and decoding checks the key, the algorithm and
the validation options exactly as `jsonwebtoken::decode` does
(`Validation::new` enables `exp` checking with a 60-second leeway;
`set_issuer` / `set_audience` restrict `iss` / `aud`). -/

structure JwtClaims where
  sub : String
  role : String
  jti : String
  iat : Int
  exp : Int
  iss : String
  aud : String
deriving DecidableEq

structure AuthConfig where
  jwt_secret : String
  jwt_issuer : String
  jwt_audience : String
  token_expiry_hours : Int
  require_auth : Bool

/-- `impl Default for AuthConfig` (lines 49-59). -/
def AuthConfig.default : AuthConfig :=
  { jwt_secret := "your-secret-key"
    jwt_issuer := "ratchet-api"
    jwt_audience := "ratchet-clients"
    token_expiry_hours := 24
    require_auth := false }

structure AuthContext where
  user_id : String
  role : String
  session_id : String
  is_authenticated : Bool
deriving DecidableEq

/-- `impl Default for AuthContext` (lines 74-83). -/
def AuthContext.default : AuthContext :=
  { user_id := "anonymous", role := "guest", session_id := "none", is_authenticated := false }

/-- `AuthContext::authenticated` (lines 87-94). -/
def AuthContext.authenticated (user_id role session_id : String) : AuthContext :=
  { user_id, role, session_id, is_authenticated := true }

inductive JwtAlg where
  | HS256
deriving DecidableEq

/-- Idealized `jsonwebtoken` token: header algorithm, claims, signing key. -/
structure JwtToken where
  alg : JwtAlg
  claims : JwtClaims
  key : String
deriving DecidableEq

/-- Idealized `jsonwebtoken::encode`. -/
def jwtEncode (alg : JwtAlg) (claims : JwtClaims) (key : String) : JwtToken :=
  ⟨alg, claims, key⟩

/-- Idealized `jsonwebtoken::Validation`. -/
structure JwtValidation where
  algorithms : List JwtAlg
  iss : Option (List String)
  aud : Option (List String)
  validate_exp : Bool
  leeway : Int

/-- `Validation::new(alg)`: `exp` required with 60 s leeway; no issuer or
audience restriction until set. -/
def JwtValidation.new (alg : JwtAlg) : JwtValidation :=
  ⟨[alg], none, none, true, 60⟩

/-- An optional restriction to a list of admissible values: no restriction
accepts everything. -/
def restrictedTo (restriction : Option (List String)) (value : String) : Bool :=
  match restriction with
  | none => true
  | some l => l.contains value

/-- Idealized `jsonwebtoken::decode`: signature (key), algorithm, issuer,
audience and (with leeway) expiry are checked. -/
def jwtDecode (t : JwtToken) (key : String) (v : JwtValidation) (now : Int) :
    Except String JwtClaims :=
  if t.key = key ∧ t.alg ∈ v.algorithms
      ∧ restrictedTo v.iss t.claims.iss
      ∧ restrictedTo v.aud t.claims.aud
      ∧ (v.validate_exp → now - v.leeway ≤ t.claims.exp) then
    .ok t.claims
  else .error "invalid token"

inductive WebError where
  | unauthorized (msg : String)
  | forbidden (msg : String)
  | internal (msg : String)
deriving DecidableEq

inductive ApiKeyPermissions where
  | Admin | Full | ReadOnly | ExecuteOnly

structure SessionRecord where
  user_id : String

structure ApiKeyRecord where
  id : String
  user_id : String
  permissions : ApiKeyPermissions

/-- The repository factory as consumed by the middleware: session and
API-key lookups (the `last_used` / usage-counter updates are fire-and-
forget writes whose failures are only logged). -/
structure AuthRepos where
  find_by_session_id : String → Except String (Option SessionRecord)
  find_by_key_hash : String → Except String (Option ApiKeyRecord)

structure JwtManager where
  config : AuthConfig
  encoding_key : String
  decoding_key : String
  repositories : Option AuthRepos

/-- `JwtManager::new` (lines 128-138). -/
def JwtManager.new (config : AuthConfig) : JwtManager :=
  ⟨config, config.jwt_secret, config.jwt_secret, none⟩

/-- `JwtManager::new_with_repositories` (lines 141-151). -/
def JwtManager.new_with_repositories (config : AuthConfig) (repos : AuthRepos) : JwtManager :=
  ⟨config, config.jwt_secret, config.jwt_secret, some repos⟩

/-- `JwtManager::generate_token` (lines 154-172); `now` is the
`Utc::now()` instant in seconds. -/
def JwtManager.generate_token (m : JwtManager) (user_id role session_id : String)
    (now : Int) : Except WebError JwtToken :=
  let exp := now + m.config.token_expiry_hours * 3600
  let claims : JwtClaims :=
    { sub := user_id, role := role, jti := session_id, iat := now, exp := exp
      iss := m.config.jwt_issuer, aud := m.config.jwt_audience }
  .ok (jwtEncode .HS256 claims m.encoding_key)

/-- `JwtManager::verify_token` (lines 175-193). -/
def JwtManager.verify_token (m : JwtManager) (token : JwtToken) (now : Int) :
    Except WebError JwtClaims :=
  let validation :=
    { JwtValidation.new .HS256 with
        iss := some [m.config.jwt_issuer], aud := some [m.config.jwt_audience] }
  match jwtDecode token m.decoding_key validation now with
  | .error _ => .error (.unauthorized "Invalid or expired token")
  | .ok claims =>
      if claims.exp < now then .error (.unauthorized "Token has expired")
      else .ok claims

/-- The value of an `Authorization` header, by scheme.  The raw string
forms `"Bearer <token>"` / `"ApiKey <key>"` are modelled as tagged values
because the JWT wire encoding is not modelled; `other` covers every other
header string. -/
inductive AuthHeader where
  | bearer (token : JwtToken)
  | apiKey (key : String)
  | other (s : String)
deriving DecidableEq

/-- The headers the middleware reads: `Authorization` and `X-API-Key`. -/
structure HeaderMap where
  authorization : Option AuthHeader
  x_api_key : Option String
deriving DecidableEq

/-- `JwtManager::extract_token` (lines 196-200): the `Bearer `-prefixed
`Authorization` value. -/
def JwtManager.extract_token (_m : JwtManager) (headers : HeaderMap) : Option JwtToken :=
  match headers.authorization with
  | some (.bearer t) => some t
  | _ => none

/-- `JwtManager::extract_api_key` (lines 203-217): `X-API-Key` first, then
an `ApiKey `-prefixed `Authorization` value. -/
def JwtManager.extract_api_key (_m : JwtManager) (headers : HeaderMap) : Option String :=
  match headers.x_api_key with
  | some k => some k
  | none =>
      match headers.authorization with
      | some (.apiKey k) => some k
      | _ => none

/-- `JwtManager::hash_api_key` (lines 220-224): SHA-256 hex digest,
idealized as an injective tagging of the key. -/
def JwtManager.hash_api_key (_m : JwtManager) (api_key : String) : String :=
  "sha256:" ++ api_key

/-- `JwtManager::validate_session` (lines 227-250). -/
def JwtManager.validate_session (m : JwtManager) (session_id : String) :
    Except WebError (Option String) :=
  match m.repositories with
  | some repos =>
      match repos.find_by_session_id session_id with
      | .ok (some session) => .ok (some session.user_id)
      | .ok none => .ok none
      | .error e => .error (.internal ("Session validation failed: " ++ e))
  | none => .ok (some "user123")

/-- `JwtManager::validate_api_key` (lines 253-301). -/
def JwtManager.validate_api_key (m : JwtManager) (api_key : String) :
    Except WebError (Option (String × String)) :=
  match m.repositories with
  | some repos =>
      match repos.find_by_key_hash (m.hash_api_key api_key) with
      | .ok (some record) =>
          let role := match record.permissions with
            | .Admin => "admin"
            | .Full => "service"
            | .ReadOnly => "readonly"
            | .ExecuteOnly => "user"
          .ok (some (record.user_id, role))
      | .ok none => .ok none
      | .error e => .error (.internal ("API key validation failed: " ++ e))
  | none =>
      if api_key = "demo-api-key" then .ok (some ("api-user", "service"))
      else .ok none

/-- `JwtManager::authenticate` (lines 303-356); `now` is the verification
instant in seconds and `freshUuid` the `Uuid::new_v4()` session id
generated for API-key access. -/
def JwtManager.authenticate (m : JwtManager) (headers : HeaderMap) (now : Int)
    (freshUuid : String) : Except WebError AuthContext :=
  if ¬ m.config.require_auth then .ok AuthContext.default
  else
    let viaJwt : Option AuthContext :=
      match m.extract_token headers with
      | some token =>
          match m.verify_token token now with
          | .ok claims =>
              match m.validate_session claims.jti with
              | .ok (some _) => some (AuthContext.authenticated claims.sub claims.role claims.jti)
              | _ => none
          | .error _ => none
      | none => none
    match viaJwt with
    | some ctx => .ok ctx
    | none =>
      let viaApiKey : Option AuthContext :=
        match m.extract_api_key headers with
        | some api_key =>
            match m.validate_api_key api_key with
            | .ok (some (user_id, role)) =>
                some (AuthContext.authenticated user_id role freshUuid)
            | _ => none
        | none => none
      match viaApiKey with
      | some ctx => .ok ctx
      | none => .error (.unauthorized "Authentication required")

/-! ## Claim C5: the error metadata table -/

/-- C5: the error metadata mapping is the spec's closed table:
`TaskError::NotFound` yields code `TASK_NOT_FOUND` with HTTP status 404,
category `NotFound`, non-retryable; `ExecutionError::Timeout` yields
`EXECUTION_TIMEOUT`, 408, `Network`, retryable with retry delay 2 s
(2000 ms); `StorageError::ConnectionFailed` yields
`STORAGE_CONNECTION_FAILED`, 503, `Network`, retryable with retry delay
1 s (1000 ms); and every `ValidationError` yields `VALIDATION_ERROR`,
400, `Validation`, non-retryable. -/
theorem c5_error_metadata_table :
    (∀ s, (RatchetError.Task (.NotFound s)).metadata =
      ⟨"TASK_NOT_FOUND", 404, false, none, .NotFound, []⟩)
  ∧ (∀ t, (RatchetError.Execution (.Timeout t)).metadata =
      ⟨"EXECUTION_TIMEOUT", 408, true, some 2000, .Network, []⟩)
  ∧ (∀ s, (RatchetError.Storage (.ConnectionFailed s)).metadata =
      ⟨"STORAGE_CONNECTION_FAILED", 503, true, some 1000, .Network, []⟩)
  ∧ (∀ v, (RatchetError.Validation v).metadata =
      ⟨"VALIDATION_ERROR", 400, false, none, .Validation, []⟩) :=
  ⟨fun _ => rfl, fun _ => rfl, fun _ => rfl, fun _ => rfl⟩

/-! ## Claim C6: `McpError` to JSON-RPC error codes -/

/-- C6: the conversion of an `McpError` to a JSON-RPC error assigns
numeric code -32601 for `MethodNotFound`, -32602 for `InvalidParams`,
-32602 for `Validation`, -32001 for `ServerTimeout`, -32603 for
`Internal`, and -32603 with the error's display message for every other
`McpError` variant. -/
theorem c6_mcp_error_to_jsonrpc (e : McpError) :
    ((mcpErrorToJsonRpc e).code =
      match e with
      | .MethodNotFound _ => -32601
      | .InvalidParams _ _ => -32602
      | .Validation _ _ => -32602
      | .ServerTimeout _ => -32001
      | _ => -32603)
  ∧ (match e with
      | .MethodNotFound _ => True
      | .InvalidParams _ _ => True
      | .Validation _ _ => True
      | .ServerTimeout _ => True
      | .Internal m => (mcpErrorToJsonRpc e).message = m
      | _ => (mcpErrorToJsonRpc e).message = e.displayString) := by
  cases e <;> exact ⟨rfl, by trivial⟩

/-! ## Claim C7: `sync_with_database` is a stub -/

/-- A manager over a filesystem-style source exposing three tasks that are
absent from the store. -/
def fsThreeTaskManager : BridgeRegistryManager :=
  ⟨[⟨["task-a", "task-b", "task-c"]⟩]⟩

/-- C7 (code evaluated at the failing input):
`BridgeRegistryManager::sync_with_database` returns the empty
`SyncResult` for every manager; in particular, against a source with
three tasks absent from the store the first call reports `added = []`
(zero additions, not three), and no call ever reports a removal. -/
theorem c7_sync_with_database_stub :
    (∀ m : BridgeRegistryManager, m.sync_with_database = .ok ⟨[], [], [], []⟩)
  ∧ fsThreeTaskManager.sync_with_database =
      .ok { added := [], updated := [], removed := [], errors := [] } :=
  ⟨fun _ => rfl, rfl⟩

/-! ## Claim C8: terminal execution updates -/

def c8Existing : UnifiedExecution :=
  { id := 7, uuid := "exec-7", task_id := 1, input := .null, output := none
    status := .Completed, error_message := none, error_details := none
    queued_at := 500, started_at := some 1000, completed_at := some 2000
    duration_ms := some 1000, http_requests := none, recording_path := none
    can_retry := false, can_cancel := false, progress := none }

def c8Request : UpdateExecutionRequest :=
  { output := none, status := some .Failed, error_message := none
    error_details := none, progress := none }

/-- C8 counterexample: updating an execution that already has
`completed_at = 2000` (and `started_at = 1000`) to the terminal status
`Failed` at time `now = 5000` keeps `completed_at = 2000` but recomputes
`duration_ms` from `now`, yielding `4000 ≠ completed_at − started_at`. -/
theorem c8_duration_recomputed_counterexample :
    (update_execution "7" c8Request true true true (some c8Existing) 5000).toOption.map
        (fun e => (e.status, e.started_at, e.completed_at, e.duration_ms)) =
      some (.Failed, some 1000, some 2000, some 4000)
  ∧ (4000 : Int) ≠ 2000 - 1000 := by
  exact ⟨rfl, by decide⟩

theorem toI32_eq_self (x : Int) (h0 : 0 ≤ x) (h1 : x < 2 ^ 31) : toI32 x = x := by
  unfold toI32
  omega

/-- C8 (amended): for every execution whose status is set to a terminal
value (`Completed`, `Failed`, `Cancelled`) through `update_execution`,
*provided* its `completed_at` is not yet set, its `started_at` is set and
not in the future, and the duration fits in `i32`, the returned execution
satisfies `completed_at = now ≥ started_at` and
`duration_ms = completed_at − started_at`, with `queued_at` and
`started_at` unchanged.  (When `completed_at` is already set it is kept
while `duration_ms` is recomputed from the current time, as the
counterexample shows.) -/
theorem c8_terminal_update_amended (execution_id : String) (existing : UnifiedExecution)
    (req : UpdateExecutionRequest) (st : ExecutionStatus) (now started : Int)
    (hst : req.status = some st)
    (hterm : st = .Completed ∨ st = .Failed ∨ st = .Cancelled)
    (hcompleted : existing.completed_at = none)
    (hstarted : existing.started_at = some started)
    (hle : started ≤ now) (hfit : now - started < 2 ^ 31) :
    ∃ e, update_execution execution_id req true true true (some existing) now = .ok e
      ∧ e.completed_at = some now
      ∧ e.started_at = some started
      ∧ e.queued_at = existing.queued_at
      ∧ e.duration_ms = some (now - started)
      ∧ started ≤ now := by
  refine ⟨applyExecutionUpdate existing req now, by simp [update_execution], ?_⟩
  have htoI32 : toI32 (now - started) = now - started :=
    toI32_eq_self (now - started) (by omega) hfit
  rcases req with ⟨ro, rs, rm, rd, rp⟩
  simp only at hst
  subst hst
  rcases hterm with rfl | rfl | rfl <;>
    cases ro <;> cases rm <;> cases rd <;> cases rp <;>
      simp [applyExecutionUpdate, hcompleted, hstarted, htoI32, hle]

def c8WitExisting : UnifiedExecution :=
  { id := 1, uuid := "exec-1", task_id := 1, input := .null, output := none
    status := .Running, error_message := none, error_details := none
    queued_at := 50, started_at := some 100, completed_at := none
    duration_ms := none, http_requests := none, recording_path := none
    can_retry := false, can_cancel := true, progress := none }

def c8WitRequest : UpdateExecutionRequest :=
  { output := none, status := some .Completed, error_message := none
    error_details := none, progress := none }

/-- C8 witness: the amended theorem at a concrete terminal update. -/
theorem c8_terminal_update_witness :
    ∃ e, update_execution "1" c8WitRequest true true true (some c8WitExisting) 200 = .ok e
      ∧ e.completed_at = some 200
      ∧ e.started_at = some 100
      ∧ e.queued_at = 50
      ∧ e.duration_ms = some 100
      ∧ (100 : Int) ≤ 200 :=
  c8_terminal_update_amended "1" c8WitExisting c8WitRequest .Completed 200 100 rfl
    (Or.inl rfl) rfl rfl (by decide) (by decide)

/-! ## Claim C9: JWT generate/verify round-trip -/

/-- C9: for every configuration with a non-negative expiry, user id, role
and session id, verifying a token immediately after generating it with
the same `JwtManager` succeeds and returns claims with `sub` equal to the
user id, `role` equal to the role, `jti` equal to the session id, and the
configured issuer and audience. -/
theorem c9_jwt_round_trip (config : AuthConfig) (user_id role session_id : String)
    (now : Int) (hexp : 0 ≤ config.token_expiry_hours) :
    ∃ token, (JwtManager.new config).generate_token user_id role session_id now = .ok token
      ∧ (JwtManager.new config).verify_token token now =
          .ok { sub := user_id, role := role, jti := session_id, iat := now
                exp := now + config.token_expiry_hours * 3600
                iss := config.jwt_issuer, aud := config.jwt_audience } := by
  refine ⟨_, rfl, ?_⟩
  have h60 : now - 60 ≤ now + config.token_expiry_hours * 3600 := by omega
  have hnn : ¬ (now + config.token_expiry_hours * 3600 < now) := by omega
  simp [JwtManager.verify_token, JwtManager.new, JwtManager.generate_token, jwtEncode,
    jwtDecode, JwtValidation.new, restrictedTo, h60, hnn]

/-- C9 witness: the round-trip at the default configuration. -/
theorem c9_jwt_round_trip_witness :
    (0 : Int) ≤ AuthConfig.default.token_expiry_hours
  ∧ ∃ token,
      (JwtManager.new AuthConfig.default).generate_token "user123" "admin" "session456" 1000 =
        .ok token
      ∧ (JwtManager.new AuthConfig.default).verify_token token 1000 =
          .ok { sub := "user123", role := "admin", jti := "session456", iat := 1000
                exp := 1000 + AuthConfig.default.token_expiry_hours * 3600
                iss := AuthConfig.default.jwt_issuer, aud := AuthConfig.default.jwt_audience } :=
  ⟨by decide, c9_jwt_round_trip AuthConfig.default "user123" "admin" "session456" 1000 (by decide)⟩

/-! ## Claim C10: disabled authentication ignores all headers -/

/-- C10: when `require_auth` is false, `JwtManager::authenticate` returns
the anonymous unauthenticated context (`user_id = "anonymous"`,
`role = "guest"`, `is_authenticated = false`) for every header map, and
the result is independent of the headers (any two runs with different
headers, instants and fresh session ids produce the same context). -/
theorem c10_auth_disabled_ignores_headers (m : JwtManager)
    (headers1 headers2 : HeaderMap) (now1 now2 : Int) (fresh1 fresh2 : String)
    (hreq : m.config.require_auth = false) :
    m.authenticate headers1 now1 fresh1 =
      .ok { user_id := "anonymous", role := "guest", session_id := "none"
            is_authenticated := false }
  ∧ m.authenticate headers1 now1 fresh1 = m.authenticate headers2 now2 fresh2 := by
  constructor <;> simp [JwtManager.authenticate, hreq, AuthContext.default]

/-- A header map carrying a syntactically valid bearer token signed with
the default secret, next to a populated `X-API-Key` header. -/
def c10CredentialHeaders : HeaderMap :=
  { authorization := some (.bearer (jwtEncode .HS256
      { sub := "user123", role := "admin", jti := "session456", iat := 0
        exp := 1000000000, iss := "ratchet-api", aud := "ratchet-clients" }
      "your-secret-key"))
    x_api_key := some "demo-api-key" }

/-- C10 witness: with the default configuration (`require_auth = false`),
a request with valid-looking credentials and a request with no headers at
all both yield the anonymous context. -/
theorem c10_auth_disabled_witness :
    (JwtManager.new AuthConfig.default).config.require_auth = false
  ∧ (JwtManager.new AuthConfig.default).authenticate c10CredentialHeaders 500 "uuid-1" =
      .ok { user_id := "anonymous", role := "guest", session_id := "none"
            is_authenticated := false }
  ∧ (JwtManager.new AuthConfig.default).authenticate c10CredentialHeaders 500 "uuid-1" =
      (JwtManager.new AuthConfig.default).authenticate ⟨none, none⟩ 999 "uuid-2" :=
  ⟨rfl,
   (c10_auth_disabled_ignores_headers (JwtManager.new AuthConfig.default)
     c10CredentialHeaders ⟨none, none⟩ 500 999 "uuid-1" "uuid-2" rfl).1,
   (c10_auth_disabled_ignores_headers (JwtManager.new AuthConfig.default)
     c10CredentialHeaders ⟨none, none⟩ 500 999 "uuid-1" "uuid-2" rfl).2⟩

/-! ## Claim C3: authorization guards on `tools/call` and `batch` -/

/-- A registry that denies access to every tool. -/
def c3Registry : ToolRegistry :=
  { list_tools := fun _ => .ok []
    can_access_tool := fun _ _ => false
    execute_tool := fun name _ => .error (.ToolNotFound name) }

def c3Handler : McpRequestHandler := ⟨c3Registry, true⟩

def c3Ctx : SecurityContext := ⟨⟨"client-1", "sess-1", ⟨10⟩⟩, none⟩

def c3CallParams : JsonValue :=
  .obj [("name", .str "secret-tool"), ("arguments", .obj [])]

/-- C3 counterexample: a denied `tools/call` returns `AuthorizationDenied`
naming the tool, but the handler writes **no** audit-log entry on this
path (it returns before reaching the `audit_logger` call), contradicting
the claim that the denial is audit-logged. -/
theorem c3_denied_call_not_audit_logged :
    (handle_tools_call c3Handler (some c3CallParams) c3Ctx "req-1").1 =
      .error (.AuthorizationDenied "Access denied to tool: secret-tool")
  ∧ ((handle_tools_call c3Handler (some c3CallParams) c3Ctx "req-1").2.filter
      Event.isAudit) = [] :=
  ⟨rfl, rfl⟩

/-- C3 (amended): for every `tools/call` whose tool name fails
`can_access_tool` under the caller's security context, `handle_tools_call`
returns an `AuthorizationDenied` error naming the tool and does not
execute the tool — but writes no audit-log entry (it records a failed
request metric and completes the correlation with error code
`authorization_denied` instead); and for every batch whose
`requests.len()` exceeds `permissions.max_batch_size`, `handle_batch`
returns a `Validation` error on `batch_size` before dispatching any inner
request (it emits no events at all). -/
theorem c3_authorization_guards :
    (∀ (h : McpRequestHandler) (ctx : SecurityContext) (v : JsonValue)
       (p : ToolsCallParams) (fresh : String),
       parseToolsCallParams v = .ok p →
       h.registry.can_access_tool p.name ctx = false →
       (handle_tools_call h (some v) ctx fresh).1 =
         .error (.AuthorizationDenied ("Access denied to tool: " ++ p.name))
       ∧ ((handle_tools_call h (some v) ctx fresh).2.filter Event.isToolExecution) = []
       ∧ ((handle_tools_call h (some v) ctx fresh).2.filter Event.isAudit) = []
       ∧ (.metricRequest "tools/call" ctx.client.id false) ∈
           (handle_tools_call h (some v) ctx fresh).2)
  ∧ (∀ (h : McpRequestHandler) (ctx : SecurityContext) (v : JsonValue)
       (p : BatchParams) (fresh : Nat → String),
       h.batchEnabled = true →
       parseBatchParams v = .ok p →
       p.requests.length > ctx.client.permissions.max_batch_size →
       handle_batch h (some v) ctx fresh =
         (.error (.Validation "batch_size" "Request size exceeds maximum allowed"), [])) := by
  constructor
  · intro h ctx v p fresh hparse haccess
    simp only [handle_tools_call, hparse, haccess]
    refine ⟨rfl, ?_, ?_, ?_⟩ <;>
      cases hrid : ctx.request_id <;>
        simp [hrid, Event.isToolExecution, Event.isAudit]
  · intro h ctx v p fresh hen hparse hover
    simp only [handle_batch, hen, hparse, PermissionChecker.validate_request_size,
      if_pos hover]
    simp

def c3BatchCtx : SecurityContext := ⟨⟨"client-1", "sess-1", ⟨2⟩⟩, none⟩

def c3BatchRequest : JsonValue :=
  .obj [("requests", .arr [
    .obj [("jsonrpc", .str "2.0"), ("method", .str "tools/list"), ("id", .num 1)],
    .obj [("jsonrpc", .str "2.0"), ("method", .str "tools/list"), ("id", .num 2)],
    .obj [("jsonrpc", .str "2.0"), ("method", .str "tools/list"), ("id", .num 3)]])]

/-- C3 witness: the amended theorem at a denied concrete call and at a
three-request batch against a `max_batch_size` of 2. -/
theorem c3_authorization_guards_witness :
    (parseToolsCallParams c3CallParams = .ok ⟨"secret-tool", some (.obj [])⟩
     ∧ c3Handler.registry.can_access_tool "secret-tool" c3Ctx = false
     ∧ (handle_tools_call c3Handler (some c3CallParams) c3Ctx "req-1").1 =
         .error (.AuthorizationDenied ("Access denied to tool: " ++ "secret-tool"))
     ∧ ((handle_tools_call c3Handler (some c3CallParams) c3Ctx "req-1").2.filter
         Event.isToolExecution) = []
     ∧ ((handle_tools_call c3Handler (some c3CallParams) c3Ctx "req-1").2.filter
         Event.isAudit) = []
     ∧ (.metricRequest "tools/call" c3Ctx.client.id false) ∈
         (handle_tools_call c3Handler (some c3CallParams) c3Ctx "req-1").2)
  ∧ handle_batch c3Handler (some c3BatchRequest) c3BatchCtx (fun _ => "req") =
      (.error (.Validation "batch_size" "Request size exceeds maximum allowed"), []) := by
  constructor
  · exact ⟨rfl, rfl, c3_authorization_guards.1 c3Handler c3Ctx c3CallParams
      ⟨"secret-tool", some (.obj [])⟩ "req-1" rfl rfl⟩
  · exact c3_authorization_guards.2 c3Handler c3BatchCtx c3BatchRequest
      ⟨[⟨"2.0", "tools/list", none, some (.num 1)⟩,
        ⟨"2.0", "tools/list", none, some (.num 2)⟩,
        ⟨"2.0", "tools/list", none, some (.num 3)⟩], none⟩ (fun _ => "req") rfl rfl
      (by decide)

/-! ## Claim C4: batch isolation and statistics -/

/-- A registry that grants access to every tool and executes it
successfully. -/
def c4Registry : ToolRegistry :=
  { list_tools := fun _ => .ok []
    can_access_tool := fun _ _ => true
    execute_tool := fun name _ => .ok ⟨.str ("ran " ++ name), false⟩ }

def c4Handler : McpRequestHandler := ⟨c4Registry, true⟩

def c4Ctx : SecurityContext := ⟨⟨"client-2", "sess-2", ⟨10⟩⟩, some "corr-1"⟩

def c4CallJson (name : String) (id : Int) : JsonValue :=
  .obj [("jsonrpc", .str "2.0"), ("method", .str "tools/call"),
        ("params", .obj [("name", .str name), ("arguments", .obj [])]),
        ("id", .num id)]

/-- A batch of three requests whose middle item names a non-existent
method. -/
def c4BatchJson : JsonValue :=
  .obj [("requests", .arr [
    c4CallJson "task-one" 1,
    .obj [("jsonrpc", .str "2.0"), ("method", .str "nonexistent/method"), ("id", .num 2)],
    c4CallJson "task-two" 3])]

def c4CallRequest (name : String) (id : Int) : JsonRpcRequest :=
  ⟨"2.0", "tools/call", some (.obj [("name", .str name), ("arguments", .obj [])]),
   some (.num id)⟩

def c4BatchParsed : BatchParams :=
  ⟨[c4CallRequest "task-one" 1,
    ⟨"2.0", "nonexistent/method", none, some (.num 2)⟩,
    c4CallRequest "task-two" 3], none⟩

/-- C4: every inner request of a batch is dispatched independently to the
single-request dispatcher — the response list is the elementwise image of
the request list, so one item's error never affects a sibling — and the
batch result carries `stats` with total, successful, failed and skipped
counts; concretely, a batch of three `tools/call`-style requests whose
middle item names a non-existent method yields responses `[Ok, Err, Ok]`
with the middle error `MethodNotFound` (-32601) and stats
`{total: 3, successful: 2, failed: 1, skipped: 0}`. -/
theorem c4_batch_isolation :
    (∀ (h : McpRequestHandler) (ctx : SecurityContext) (v : JsonValue) (p : BatchParams)
       (fresh : Nat → String),
       h.batchEnabled = true →
       parseBatchParams v = .ok p →
       PermissionChecker.validate_request_size ctx.client.permissions p.requests.length =
         .ok () →
       ∃ result trace, handle_batch h (some v) ctx fresh = (.ok result, trace)
         ∧ result.responses =
             p.requests.enum.map (fun q => (dispatchToResponse h ctx (fresh q.1) q.2).1)
         ∧ result.stats.total_requests = p.requests.length
         ∧ result.stats.successful_requests =
             (result.responses.filter fun r => r.error.isNone).length
         ∧ result.stats.failed_requests =
             (result.responses.filter fun r => r.error.isSome).length
         ∧ result.stats.skipped_requests = 0)
  ∧ (∃ result trace,
       handle_batch c4Handler (some c4BatchJson) c4Ctx (fun _ => "fresh") =
         (.ok result, trace)
       ∧ result.responses.map (fun r => r.error.map (·.code)) = [none, some (-32601), none]
       ∧ result.stats = ⟨3, 2, 1, 0⟩) := by
  constructor
  · intro h ctx v p fresh hen hparse hsize
    simp only [handle_batch, hen, hparse, hsize]
    refine ⟨_, _, rfl, ?_, ?_, ?_, ?_, ?_⟩ <;>
      simp [process_batch_with_handler, List.map_map]
  · exact ⟨_, _, rfl, rfl, rfl⟩

/-- C4 witness: the universal part of the claim applied to the concrete
three-request batch. -/
theorem c4_batch_isolation_witness :
    c4Handler.batchEnabled = true
  ∧ parseBatchParams c4BatchJson = .ok c4BatchParsed
  ∧ PermissionChecker.validate_request_size c4Ctx.client.permissions
      c4BatchParsed.requests.length = .ok ()
  ∧ ∃ result trace,
      handle_batch c4Handler (some c4BatchJson) c4Ctx (fun _ => "fresh") = (.ok result, trace)
      ∧ result.responses =
          c4BatchParsed.requests.enum.map
            (fun q => (dispatchToResponse c4Handler c4Ctx ((fun _ => "fresh") q.1) q.2).1)
      ∧ result.stats.total_requests = c4BatchParsed.requests.length
      ∧ result.stats.successful_requests =
          (result.responses.filter fun r => r.error.isNone).length
      ∧ result.stats.failed_requests =
          (result.responses.filter fun r => r.error.isSome).length
      ∧ result.stats.skipped_requests = 0 :=
  ⟨rfl, rfl, rfl,
   c4_batch_isolation.1 c4Handler c4Ctx c4BatchJson c4BatchParsed (fun _ => "fresh")
     rfl rfl rfl⟩

/-! ## Claims C1 and C2: `tools/list` pagination -/

/-- A registry exposing a fixed tool list (the handler's other
capabilities are irrelevant to `tools/list`). -/
def listOnlyRegistry (tools : List McpTool) : ToolRegistry :=
  { list_tools := fun _ => .ok tools
    can_access_tool := fun _ _ => true
    execute_tool := fun name _ => .error (.ToolNotFound name) }

/-- The `tools/list` params JSON for an optional cursor. -/
def cursorParams : Option String → Option JsonValue
  | some c => some (.obj [("cursor", .str c)])
  | none => none

/-- A handler over a fixed tool list. -/
def listOnlyHandler (tools : List McpTool) : McpRequestHandler :=
  ⟨listOnlyRegistry tools, false⟩

/-- The start index `handle_tools_list` derives from an optional cursor
(lines 118-135). -/
def startIndexOf (cursor? : Option String) (len : Nat) : Nat :=
  match cursor? with
  | some cursor => decodeCursorIndex cursor len
  | none => 0

/-- Closed form of `handle_tools_list` over a fixed tool list: one page of
`PAGE_SIZE` tools from the decoded start index, with the base64 decimal
cursor of the end index when tools remain. -/
theorem handle_tools_list_page (tools : List McpTool) (ctx : SecurityContext)
    (fresh : String) (cursor? : Option String) :
    (handle_tools_list (listOnlyHandler tools) (cursorParams cursor?) ctx fresh).1 =
      .ok ⟨(tools.drop (startIndexOf cursor? tools.length)).take PAGE_SIZE,
           if min (startIndexOf cursor? tools.length + PAGE_SIZE) tools.length < tools.length
           then some (encodeCursor (min (startIndexOf cursor? tools.length + PAGE_SIZE)
                        tools.length))
           else none⟩ := by
  cases cursor? <;> rfl

theorem startIndexOf_encode (len i : Nat) (hlt : i < len) (h64 : i < 2 ^ 64) :
    startIndexOf (some (encodeCursor i)) len = i := by
  have hdec : base64Decode (encodeCursor i).data = some (natDecimal i) :=
    base64_roundtrip (natDecimal i)
      (fun b hb => by have := natDecimalGo_digits i i b hb; omega)
  have hparse := parseUsizeBytes_natDecimal i h64
  simp [startIndexOf, decodeCursorIndex, hdec, hparse, hlt]

/-- The registry of the pagination scenario: 120 tools. -/
def tools120 : List McpTool := (List.range 120).map fun i => ⟨"tool-" ++ toString i, ""⟩

def c1Ctx : SecurityContext := ⟨⟨"client-3", "sess-3", ⟨10⟩⟩, some "rid-1"⟩

set_option maxRecDepth 8192 in
/-- C1: for every registry tool list and optional cursor,
`handle_tools_list` returns without error the page of at most
`PAGE_SIZE = 50` tools starting at the decoded index, with
`next_cursor = base64(decimal end-index)` exactly when tools remain; a
cursor that is the base64 decimal encoding of an in-range index starts
there; a cursor that is invalid base64, non-numeric, or out of range
restarts at index 0; and with 120 tools the three pages are 50, 50 and 20
tools with cursors `base64("50") = "NTA="` and `base64("100") = "MTAw"`. -/
theorem c1_tools_list_pagination :
    (∀ (tools : List McpTool) (ctx : SecurityContext) (fresh : String)
       (cursor? : Option String),
       (handle_tools_list (listOnlyHandler tools) (cursorParams cursor?) ctx fresh).1 =
         .ok ⟨(tools.drop (startIndexOf cursor? tools.length)).take PAGE_SIZE,
              if min (startIndexOf cursor? tools.length + PAGE_SIZE) tools.length <
                   tools.length
              then some (encodeCursor
                     (min (startIndexOf cursor? tools.length + PAGE_SIZE) tools.length))
              else none⟩)
  ∧ (∀ (tools : List McpTool) (ctx : SecurityContext) (fresh : String)
       (cursor? : Option String) (page : ToolsListResult),
       (handle_tools_list (listOnlyHandler tools) (cursorParams cursor?) ctx fresh).1 =
         .ok page →
       page.tools.length ≤ 50)
  ∧ (∀ (len i : Nat), i < len → i < 2 ^ 64 → startIndexOf (some (encodeCursor i)) len = i)
  ∧ (∀ (c : String) (len : Nat),
       (base64Decode c.toList = none
        ∨ (∃ bs, base64Decode c.toList = some bs ∧ parseUsizeBytes bs = none)
        ∨ (∃ bs i, base64Decode c.toList = some bs ∧ parseUsizeBytes bs = some i ∧ len ≤ i)) →
       startIndexOf (some c) len = 0)
  ∧ (encodeCursor 50 = "NTA=" ∧ encodeCursor 100 = "MTAw"
     ∧ (handle_tools_list (listOnlyHandler tools120) none c1Ctx "f").1 =
         .ok ⟨tools120.take 50, some "NTA="⟩
     ∧ (handle_tools_list (listOnlyHandler tools120)
          (some (.obj [("cursor", .str "NTA=")])) c1Ctx "f").1 =
         .ok ⟨(tools120.drop 50).take 50, some "MTAw"⟩
     ∧ (handle_tools_list (listOnlyHandler tools120)
          (some (.obj [("cursor", .str "MTAw")])) c1Ctx "f").1 =
         .ok ⟨tools120.drop 100, none⟩
     ∧ (tools120.take 50).length = 50
     ∧ ((tools120.drop 50).take 50).length = 50
     ∧ (tools120.drop 100).length = 20) := by
  refine ⟨handle_tools_list_page, ?_, startIndexOf_encode, ?_, ?_⟩
  · intro tools ctx fresh cursor? page hpage
    rw [handle_tools_list_page] at hpage
    cases hpage
    have hP : PAGE_SIZE = 50 := rfl
    simp only [List.length_take]
    omega
  · intro c len hinv
    rcases hinv with hnone | ⟨bs, hbs, hparse⟩ | ⟨bs, i, hbs, hparse, hge⟩
    · simp only [startIndexOf, decodeCursorIndex, hnone]
    · simp only [startIndexOf, decodeCursorIndex, hbs, hparse]
    · simp only [startIndexOf, decodeCursorIndex, hbs, hparse]
      rw [if_neg (by omega)]
  · exact ⟨rfl, rfl, rfl, rfl, rfl, rfl, rfl, rfl⟩

/-- C1 witness: the encoded-cursor and invalid-cursor parts of the claim
at concrete inputs. -/
theorem c1_tools_list_pagination_witness :
    ((50 : Nat) < 120 ∧ (50 : Nat) < 2 ^ 64
     ∧ startIndexOf (some (encodeCursor 50)) 120 = 50)
  ∧ (base64Decode "%%invalid%%".toList = none
     ∧ startIndexOf (some "%%invalid%%") 120 = 0) :=
  ⟨⟨by decide, by decide, c1_tools_list_pagination.2.2.1 120 50 (by decide) (by decide)⟩,
   ⟨by decide, c1_tools_list_pagination.2.2.2.1 "%%invalid%%" 120 (Or.inl (by decide))⟩⟩

/-! ### Claim C2: exhaustive enumeration across pages -/

/-- Iterate `handle_tools_list` following each returned `next_cursor`
until it is absent, collecting the pages (with enough fuel the iteration
always terminates because pages advance the start index). -/
def collectToolPages (tools : List McpTool) (ctx : SecurityContext) (fresh : String) :
    Nat → Option String → List (List McpTool)
  | 0, _ => []
  | fuel + 1, cursor? =>
      match (handle_tools_list (listOnlyHandler tools) (cursorParams cursor?) ctx fresh).1 with
      | .ok page =>
          match page.next_cursor with
          | none => [page.tools]
          | some c => page.tools :: collectToolPages tools ctx fresh fuel (some c)
      | .error _ => []

theorem collectToolPages_drop (tools : List McpTool) (ctx : SecurityContext)
    (fresh : String) (h64 : tools.length < 2 ^ 64) :
    ∀ (fuel : Nat) (cursor? : Option String) (s : Nat),
      startIndexOf cursor? tools.length = s →
      tools.length - s ≤ fuel * 50 →
      1 ≤ fuel →
      (collectToolPages tools ctx fresh fuel cursor?).flatten = tools.drop s := by
  intro fuel
  induction fuel with
  | zero =>
    intro _ _ _ _ hfuel
    omega
  | succ fuel ih =>
    intro cursor? s hs hbound _
    have hP : PAGE_SIZE = 50 := rfl
    by_cases hlt : s + PAGE_SIZE < tools.length
    · have hmin : min (s + PAGE_SIZE) tools.length = s + PAGE_SIZE := by omega
      have hrec := ih (some (encodeCursor (s + PAGE_SIZE))) (s + PAGE_SIZE)
        (startIndexOf_encode tools.length (s + PAGE_SIZE) hlt (by omega))
        (by omega) (by omega)
      simp only [collectToolPages, handle_tools_list_page, hs, hmin, if_pos hlt,
        List.flatten_cons, hrec]
      rw [show tools.drop (s + PAGE_SIZE) = (tools.drop s).drop PAGE_SIZE by
        rw [List.drop_drop]]
      exact List.take_append_drop PAGE_SIZE (tools.drop s)
    · have hmin : min (s + PAGE_SIZE) tools.length = tools.length := by omega
      simp only [collectToolPages, handle_tools_list_page, hs, hmin, lt_irrefl, if_false,
        List.flatten_cons, List.flatten_nil, List.append_nil]
      exact List.take_of_length_le (by simp only [List.length_drop]; omega)

/-- C2: for every fixed tool list, iterating `handle_tools_list` starting
with no cursor and following each returned `next_cursor` until it is
absent yields every tool exactly once across the union of all pages: the
concatenation of the pages is the tool list itself. -/
theorem c2_pagination_exhaustive (tools : List McpTool) (ctx : SecurityContext)
    (fresh : String) (h64 : tools.length < 2 ^ 64) :
    (collectToolPages tools ctx fresh (tools.length + 1) none).flatten = tools := by
  have h := collectToolPages_drop tools ctx fresh h64 (tools.length + 1) none 0 rfl
    (by omega) (by omega)
  simpa using h

def c2Tools : List McpTool := [⟨"alpha", ""⟩, ⟨"beta", ""⟩, ⟨"gamma", ""⟩]

def c2Ctx : SecurityContext := ⟨⟨"client-4", "sess-4", ⟨10⟩⟩, some "rid-2"⟩

/-- C2 witness: the exhaustive enumeration at a concrete three-tool
registry. -/
theorem c2_pagination_exhaustive_witness :
    c2Tools.length < 2 ^ 64
  ∧ (collectToolPages c2Tools c2Ctx "f" (c2Tools.length + 1) none).flatten = c2Tools :=
  ⟨by decide, c2_pagination_exhaustive c2Tools c2Ctx "f" (by decide)⟩

end Ratchet
